import Mathlib

/-!
Shallow embedding of the cg-dashboard Go service's OAuth handshake
controllers (`controllers` package), liveness endpoint, and settings
loader (`helpers` package), together with theorems checking the
natural-language specification against this embedding.

Conventions of the embedding:
* Go `oauth2.Token` becomes `Token`; `time.Time` expiries become `Nat`
  timestamps, with `0` standing for Go's zero `time.Time{}`.
* A gorilla session's `Values` map is only ever used at the keys
  "state" (a string) and "token" (an `oauth2.Token`), so a session is
  a record of those two optional fields plus its cookie `MaxAge`
  option.  A missing key is `none`; Go's `state != session.Values["state"]`
  comparison of a string against an `interface\x7b\x7d` is false whenever the
  key is absent or non-string, which the `Option String` model captures.
* Network calls to the OAuth provider (`Config.Exchange`,
  `Config.TokenSource(...).Token()`) are oracles passed to the handler
  as functions returning `Except String Token`; the handler records
  each call it makes in an ordered trace, so that temporal claims are
  about the trace.
* `http.ResponseWriter` effects become a result record: an optional
  explicit status (from `WriteHeader`), an optional redirect
  (`http.Redirect` status and Location), the session value at the end
  of the handler, and whether `session.Save` was invoked.
-/

namespace CgDashboard

/-- Go `oauth2.Token`: access token, refresh token, token type and
absolute expiry timestamp (`0` = Go's zero time). -/
structure Token where
  accessToken  : String
  refreshToken : String
  tokenType    : String
  expiry       : Nat
deriving Repr, DecidableEq

/-- The per-browser session: the two keys the dashboard ever stores in
`session.Values` ("state" and "token"), plus the cookie MaxAge option. -/
structure Session where
  state  : Option String
  token  : Option Token
  maxAge : Int
deriving Repr, DecidableEq

/-- Go `oauth2.Config`: the fields the dashboard sets. -/
structure OAuthConfig where
  clientID     : String
  clientSecret : String
  redirectURL  : String
  scopes       : List String
  authURL      : String
  tokenURL     : String
deriving Repr, DecidableEq

/-- Go `clientcredentials.Config` (the high-privileged client). -/
structure ClientCredentialsConfig where
  clientID     : String
  clientSecret : String
  scopes       : List String
  tokenURL     : String
deriving Repr, DecidableEq

/-- The subset of `helpers.Settings` that is plain data (the session
store is represented by its two key byte sequences and cookie options;
`StateGenerator` is an oracle passed separately to the handlers that
use it). -/
structure Settings where
  oauthConfig               : OAuthConfig
  consoleAPI                : String
  loginURL                  : String
  uaaURL                    : String
  logURL                    : String
  templatesPath             : String
  highPrivilegedOauthConfig : ClientCredentialsConfig
  pprofEnabled              : Bool
  buildInfo                 : String
  secureCookies             : Bool
  localCF                   : Bool
  appURL                    : String
  smtpHost                  : String
  smtpPort                  : String
  smtpUser                  : String
  smtpPass                  : String
  smtpFrom                  : String
  smtpCert                  : String
  ticSecret                 : String
  csrfKey                   : List Nat
  sessionAuthenticationKey  : List Nat
  sessionEncryptionKey      : List Nat
  sessionHttpOnly           : Bool
  sessionSecure             : Bool
deriving Repr, DecidableEq

/-- One outbound call to the OAuth provider, as recorded in a handler's
trace: either `Config.Exchange(ctx, code)` against `cfg`, or
`Config.TokenSource(ctx, input).Token()` against `cfg`. -/
inductive ProviderCall where
  | exchangeCall    (cfg : OAuthConfig) (code : String)
  | tokenSourceCall (cfg : OAuthConfig) (input : Token)
deriving Repr, DecidableEq

/-- Result of `OAuthCallback`: explicit status from `WriteHeader` (if
any), redirect (status code and Location, if any), the session value
when the handler returns, whether `session.Save` ran, and the ordered
trace of provider calls. -/
structure CallbackResult where
  status   : Option Nat
  redirect : Option (Nat × String)
  session  : Session
  saved    : Bool
  calls    : List ProviderCall
deriving Repr, DecidableEq

/-- The cloned config of `OAuthCallback` (source lines 134-142): same
client credentials, redirect URL and scopes as the standard config, an
endpoint whose TokenURL gains `?token_format=opaque`, and no AuthURL
(the clone sets only `Endpoint.TokenURL`). -/
def tokenExchangeConfig (s : Settings) : OAuthConfig :=
  { clientID     := s.oauthConfig.clientID
    clientSecret := s.oauthConfig.clientSecret
    redirectURL  := s.oauthConfig.redirectURL
    scopes       := s.oauthConfig.scopes
    authURL      := ""
    tokenURL     := s.oauthConfig.tokenURL ++ "?token_format=opaque" }

/-- `controllers.OAuthCallback`.  `exchange cfg code` models
`cfg.Exchange(ctx, code)` and `tokenSource cfg t` models
`cfg.TokenSource(ctx, t).Token()`.  The `len(code) < 1` branch of the
source is an empty TODO block, hence a no-op here. -/
def OAuthCallback (s : Settings)
    (exchange : OAuthConfig → String → Except String Token)
    (tokenSource : OAuthConfig → Token → Except String Token)
    (code state : String) (session : Session) : CallbackResult :=
  if state = "" ∨ session.state ≠ some state then
    { status := some 401, redirect := none, session := session,
      saved := false, calls := [] }
  else
    let cfg := tokenExchangeConfig s
    match exchange cfg code with
    | Except.error _ =>
      { status := none, redirect := none, session := session, saved := false,
        calls := [ProviderCall.exchangeCall cfg code] }
    | Except.ok token =>
      let originalRefreshToken := token.refreshToken
      let wiped : Token := { token with accessToken := "", expiry := 0 }
      match tokenSource s.oauthConfig wiped with
      | Except.error _ =>
        { status := none, redirect := none, session := session, saved := false,
          calls := [ProviderCall.exchangeCall cfg code,
                    ProviderCall.tokenSourceCall s.oauthConfig wiped] }
      | Except.ok token2 =>
        let finalToken : Token := { token2 with refreshToken := originalRefreshToken }
        { status := none,
          redirect := some (302, s.appURL ++ "/#/dashboard"),
          session := { session with token := some finalToken, state := none },
          saved := true,
          calls := [ProviderCall.exchangeCall cfg code,
                    ProviderCall.tokenSourceCall s.oauthConfig wiped] }

/-- Result of `LoginHandshake`: redirect (status and Location, if
any), the session value when the handler returns, whether
`session.Save` ran, and whether `Settings.StateGenerator` was
invoked. -/
structure HandshakeResult where
  redirect       : Option (Nat × String)
  session        : Session
  saved          : Bool
  stateGenerated : Bool
deriving Repr, DecidableEq

/-- `oauth2.Config.AuthCodeURL(state, oauth2.AccessTypeOnline)` of the
oauth2 library, abstracting the library's URL query encoding: the
authorization endpoint with the config's parameters, `response_type=code`,
`access_type=online` and the given state. -/
def AuthCodeURL (cfg : OAuthConfig) (state : String) : String :=
  cfg.authURL ++ "?access_type=online&client_id=" ++ cfg.clientID ++
    "&redirect_uri=" ++ cfg.redirectURL ++ "&response_type=code&scope=" ++
    String.intercalate "+" cfg.scopes ++ "&state=" ++ state

/-- Modelled from the spec: `helpers.GetValidToken` (its file is not
under src/; only its caller `LoginHandshake` is).  Per the spec, the
login handler short-circuits when "the incoming request already carries
a session with a non-expired token": the function yields the session's
token exactly when one is present and its expiry lies in the future. -/
def GetValidToken (now : Nat) (session : Session) : Option Token :=
  match session.token with
  | some t => if now < t.expiry then some t else none
  | none => none

/-- `controllers.(*Context).redirect`: generate a state nonce (the
`stateGen` oracle models `Settings.StateGenerator`), store it in the
session, save the session (`saveOK` models whether `session.Save`
succeeds), and redirect to the provider's authorization URL; on a
generator error nothing is stored, on a save error no redirect is
emitted. -/
def loginRedirect (s : Settings) (stateGen : Except String String)
    (saveOK : Bool) (session : Session) : HandshakeResult :=
  match stateGen with
  | Except.error _ =>
    { redirect := none, session := session, saved := false, stateGenerated := true }
  | Except.ok newState =>
    let session2 := { session with state := some newState }
    if saveOK then
      { redirect := some (302, AuthCodeURL s.oauthConfig newState),
        session := session2, saved := true, stateGenerated := true }
    else
      { redirect := none, session := session2, saved := true, stateGenerated := true }

/-- `controllers.LoginHandshake`: with a valid (non-expired) token in
the session, redirect straight to the dashboard; otherwise run
`loginRedirect`. -/
def LoginHandshake (s : Settings) (now : Nat)
    (stateGen : Except String String) (saveOK : Bool)
    (session : Session) : HandshakeResult :=
  match GetValidToken now session with
  | some _ =>
    { redirect := some (302, s.appURL ++ "/#/dashboard"), session := session,
      saved := false, stateGenerated := false }
  | none => loginRedirect s stateGen saveOK session

/-- Result of `Logout`: the redirect, the session value at return, and
whether `session.Save` ran. -/
structure LogoutResult where
  redirect : Option (Nat × String)
  session  : Session
  saved    : Bool
deriving Repr, DecidableEq

/-- `controllers.Logout`: clear the token, set the cookie MaxAge to -1,
save, redirect (302) to `<LoginURL>/logout.do`. -/
def Logout (s : Settings) (session : Session) : LogoutResult :=
  let session2 := { session with token := none, maxAge := -1 }
  { redirect := some (302, s.loginURL ++ "/logout.do"),
    session := session2, saved := true }

/-- Go `pingData`: the liveness payload with json tags "status" and
"build-info". -/
structure pingData where
  status    : String
  buildInfo : String
deriving Repr, DecidableEq

/-- The constant `pingDataStatusAlive`. -/
def pingDataStatusAlive : String := "alive"

/-- `pingData.isSystemHealthy`. -/
def pingData.isSystemHealthy (p : pingData) : Bool :=
  p.status = pingDataStatusAlive

/-- A lowercase hex digit, as Go's encoders print them. -/
def hexDigitChar (n : Nat) : Char :=
  if n < 10 then Char.ofNat (48 + n) else Char.ofNat (87 + n)

/-- How Go's `encoding/json` escapes one character inside a JSON
string: quote, backslash, the HTML-sensitive `<` `>` `&`, control
characters, and U+2028/U+2029. -/
def goEscapeChar (c : Char) : String :=
  if c = '"' then "\\\""
  else if c = '\\' then "\\\\"
  else if c = '\n' then "\\n"
  else if c = '\r' then "\\r"
  else if c = '\t' then "\\t"
  else if c = '<' then "\\u003c"
  else if c = '>' then "\\u003e"
  else if c = '&' then "\\u0026"
  else if c.toNat < 32 then
    "\\u00" ++ String.mk [hexDigitChar (c.toNat / 16), hexDigitChar (c.toNat % 16)]
  else if c.toNat = 8232 then "\\u2028"
  else if c.toNat = 8233 then "\\u2029"
  else String.mk [c]

/-- Go JSON string escaping applied to a whole string. -/
def goJSONEscape (s : String) : String :=
  String.join (s.data.map goEscapeChar)

/-- `json.Marshal` on a `pingData` value: a two-field JSON object in
struct-field order.  Marshalling a struct of two plain strings cannot
fail in Go, so the result is always `ok` (the `Except` shape mirrors
the `err` return the source branches on). -/
def goMarshalPingData (p : pingData) : Except String String :=
  Except.ok ("\x7b\"status\":\"" ++ goJSONEscape p.status ++
    "\",\"build-info\":\"" ++ goJSONEscape p.buildInfo ++ "\"\x7d")

/-- `pingData.toJSON`: the marshalled bytes and a success flag; on a
marshal error it returns the source's hand-built error payload and
`false`. -/
def pingData.toJSON (p : pingData) : String × Bool :=
  match goMarshalPingData p with
  | Except.error e => ("\"status\": \"error\": \"data\": \"" ++ e ++ "\"", false)
  | Except.ok body => (body, true)

/-- `createPingData`. -/
def createPingData (c : Settings) : pingData :=
  { status := pingDataStatusAlive, buildInfo := c.buildInfo }

/-- Result of `Ping`: HTTP status (200 when `WriteHeader` was never
called) and body. -/
structure PingResponse where
  status : Nat
  body   : String
deriving Repr, DecidableEq

/-- `controllers.Ping`: writes 500 before the body when the payload is
unhealthy or failed to marshal, otherwise the body alone (an implicit
200). -/
def Ping (c : Settings) : PingResponse :=
  let data := createPingData c
  let dataJSON := (pingData.toJSON data).1
  let conversionSuccess := (pingData.toJSON data).2
  if !data.isSystemHealthy || !conversionSuccess then
    { status := 500, body := dataJSON }
  else
    { status := 200, body := dataJSON }

/-!
The settings loader.  The env-var-name constants live in a helpers file
that is not part of the staged sources; their exact string values are
immaterial to the theorems (only that the keys used by `InitSettings`
are distinct), so they are given their conventional values here.
-/

/-- Env var key constant (see module note above). -/
def TemplatesPathEnvVar : String := "CONSOLE_TEMPLATES_PATH"

/-- Env var key constant. -/
def HostnameEnvVar : String := "CONSOLE_HOSTNAME"

/-- Env var key constant. -/
def APIURLEnvVar : String := "CONSOLE_API_URL"

/-- Env var key constant. -/
def LoginURLEnvVar : String := "CONSOLE_LOGIN_URL"

/-- Env var key constant. -/
def UAAURLEnvVar : String := "CONSOLE_UAA_URL"

/-- Env var key constant. -/
def LogURLEnvVar : String := "CONSOLE_LOG_URL"

/-- Env var key constant. -/
def PProfEnabledEnvVar : String := "PPROF_ENABLED"

/-- Env var key constant. -/
def BuildInfoEnvVar : String := "BUILD_INFO"

/-- Env var key constant. -/
def LocalCFEnvVar : String := "LOCAL_CF"

/-- Env var key constant. -/
def SecureCookiesEnvVar : String := "SECURE_COOKIES"

/-- Env var key constant. -/
def ClientIDEnvVar : String := "CONSOLE_CLIENT_ID"

/-- Env var key constant. -/
def ClientSecretEnvVar : String := "CONSOLE_CLIENT_SECRET"

/-- Env var key constant. -/
def CSRFKeyEnvVar : String := "CSRF_KEY"

/-- Env var key constant. -/
def SessionAuthenticationEnvVar : String := "SESSION_AUTHENTICATION_KEY"

/-- Env var key constant. -/
def SessionEncryptionEnvVar : String := "SESSION_ENCRYPTION_KEY"

/-- Env var key constant. -/
def SMTPHostEnvVar : String := "SMTP_HOST"

/-- Env var key constant. -/
def SMTPPortEnvVar : String := "SMTP_PORT"

/-- Env var key constant. -/
def SMTPUserEnvVar : String := "SMTP_USER"

/-- Env var key constant. -/
def SMTPPassEnvVar : String := "SMTP_PASS"

/-- Env var key constant. -/
def SMTPFromEnvVar : String := "SMTP_FROM"

/-- Env var key constant. -/
def SMTPCertEnvVar : String := "SMTP_CERT"

/-- Env var key constant. -/
def TICSecretEnvVar : String := "TIC_SECRET"

/-- The ways `InitSettings` can fail: a mandatory variable missing
(`env.MustString` / `env.MustBool` panic recovered into an error), a
boolean that does not parse, the insecure-cookies-in-production guard,
or a non-hex secret. -/
inductive SettingsError where
  | varNotFound (key : String)
  | boolParseError (key : String)
  | insecureCookies
  | hexDecodeError (key : String)
deriving Repr, DecidableEq

/-- The error's user-visible text; `insecureCookies` carries the exact
string built by `errors.New` in the source. -/
def SettingsError.message : SettingsError → String
  | SettingsError.varNotFound key => key ++ ": variable not found"
  | SettingsError.boolParseError key => key ++ ": cannot parse as bool"
  | SettingsError.insecureCookies =>
      "cannot run with insecure cookies when targeting a production CF environment"
  | SettingsError.hexDecodeError key => "could not decode hex env var " ++ key

/-- Go `strconv.ParseBool`, as `env.MustBool` uses it. -/
def parseBool (s : String) : Option Bool :=
  if s = "1" ∨ s = "t" ∨ s = "T" ∨ s = "TRUE" ∨ s = "true" ∨ s = "True" then
    some true
  else if s = "0" ∨ s = "f" ∨ s = "F" ∨ s = "FALSE" ∨ s = "false" ∨ s = "False" then
    some false
  else none

/-- `envVars.String(key, fallback)`: the value when present, else the
fallback. -/
def envString (env : String → Option String) (key fallback : String) : String :=
  match env key with
  | some v => v
  | none => fallback

/-- `envVars.MustString(key)`: the value, or the var-not-found error
that `InitSettings`'s recover turns into its return value. -/
def mustString (env : String → Option String) (key : String) :
    Except SettingsError String :=
  match env key with
  | some v => Except.ok v
  | none => Except.error (SettingsError.varNotFound key)

/-- `envVars.MustBool(key)`: the parsed value, var-not-found when
absent, a parse error otherwise. -/
def mustBool (env : String → Option String) (key : String) :
    Except SettingsError Bool :=
  match env key with
  | some v =>
    match parseBool v with
    | some b => Except.ok b
    | none => Except.error (SettingsError.boolParseError key)
  | none => Except.error (SettingsError.varNotFound key)

/-- The numeric value of one hex digit, upper or lower case. -/
def hexDigitVal (c : Char) : Option Nat :=
  if '0' ≤ c ∧ c ≤ '9' then some (c.toNat - 48)
  else if 'a' ≤ c ∧ c ≤ 'f' then some (c.toNat - 87)
  else if 'A' ≤ c ∧ c ≤ 'F' then some (c.toNat - 55)
  else none

/-- Byte-pairwise hex decoding; fails on odd length or a non-hex
character, like Go's `hex.DecodeString`. -/
def hexDecodeList : List Char → Option (List Nat)
  | [] => some []
  | [_] => none
  | a :: b :: rest =>
    match hexDigitVal a, hexDigitVal b, hexDecodeList rest with
    | some ha, some hb, some tail => some ((16 * ha + hb) :: tail)
    | _, _, _ => none

/-- Go `hex.DecodeString`. -/
def hexDecode (s : String) : Option (List Nat) :=
  hexDecodeList s.data

/-- The decode-or-fail step `InitSettings` applies to each hex secret,
failing with an error naming the key. -/
def decodeHexKey (key s : String) : Except SettingsError (List Nat) :=
  match hexDecode s with
  | some bs => Except.ok bs
  | none => Except.error (SettingsError.hexDecodeError key)

/-- `helpers.(*Settings).InitSettings`, in the source's evaluation
order: optional templates path; mandatory hostname, API, login, UAA and
log URLs; mandatory pprof, local-CF and secure-cookies booleans; the
insecure-cookies-in-production guard; then the OAuth client config
(re-reading the login and UAA URLs as the source does), the CSRF and
session keys (hex-decoded), the high-privileged client config, and the
SMTP/TIC values. -/
def InitSettings (env : String → Option String) : Except SettingsError Settings :=
  let templatesPath := envString env TemplatesPathEnvVar "./templates"
  Except.bind (mustString env HostnameEnvVar) fun appURL =>
  Except.bind (mustString env APIURLEnvVar) fun consoleAPI =>
  Except.bind (mustString env LoginURLEnvVar) fun loginURL =>
  Except.bind (mustString env UAAURLEnvVar) fun uaaURL =>
  Except.bind (mustString env LogURLEnvVar) fun logURL =>
  Except.bind (mustBool env PProfEnabledEnvVar) fun pprofEnabled =>
  let buildInfo := envString env BuildInfoEnvVar "developer-build"
  Except.bind (mustBool env LocalCFEnvVar) fun localCF =>
  Except.bind (mustBool env SecureCookiesEnvVar) fun secureCookies =>
  if localCF == false && secureCookies == false then
    Except.error SettingsError.insecureCookies
  else
  Except.bind (mustString env ClientIDEnvVar) fun clientID =>
  Except.bind (mustString env ClientSecretEnvVar) fun clientSecret =>
  Except.bind (mustString env LoginURLEnvVar) fun authBase =>
  Except.bind (mustString env UAAURLEnvVar) fun tokenBase =>
  Except.bind (mustString env CSRFKeyEnvVar) fun csrfHex =>
  Except.bind (decodeHexKey CSRFKeyEnvVar csrfHex) fun csrfKey =>
  Except.bind (mustString env SessionAuthenticationEnvVar) fun authHex =>
  Except.bind (decodeHexKey SessionAuthenticationEnvVar authHex) fun authKey =>
  Except.bind (mustString env SessionEncryptionEnvVar) fun encHex =>
  Except.bind (decodeHexKey SessionEncryptionEnvVar encHex) fun encKey =>
  Except.bind (mustString env ClientIDEnvVar) fun hpClientID =>
  Except.bind (mustString env ClientSecretEnvVar) fun hpClientSecret =>
  Except.bind (mustString env UAAURLEnvVar) fun hpTokenBase =>
  Except.bind (mustString env SMTPFromEnvVar) fun smtpFrom =>
  Except.bind (mustString env SMTPHostEnvVar) fun smtpHost =>
  Except.ok
    { oauthConfig :=
        { clientID := clientID, clientSecret := clientSecret,
          redirectURL := appURL ++ "/oauth2callback",
          scopes := ["cloud_controller.read", "cloud_controller.write",
                     "cloud_controller.admin", "scim.read", "openid"],
          authURL := authBase ++ "/oauth/authorize",
          tokenURL := tokenBase ++ "/oauth/token" },
      consoleAPI := consoleAPI, loginURL := loginURL, uaaURL := uaaURL,
      logURL := logURL, templatesPath := templatesPath,
      highPrivilegedOauthConfig :=
        { clientID := hpClientID, clientSecret := hpClientSecret,
          scopes := ["scim.invite", "cloud_controller.admin", "scim.read"],
          tokenURL := hpTokenBase ++ "/oauth/token" },
      pprofEnabled := pprofEnabled, buildInfo := buildInfo,
      secureCookies := secureCookies, localCF := localCF, appURL := appURL,
      smtpHost := smtpHost, smtpPort := envString env SMTPPortEnvVar "",
      smtpUser := envString env SMTPUserEnvVar "",
      smtpPass := envString env SMTPPassEnvVar "", smtpFrom := smtpFrom,
      smtpCert := envString env SMTPCertEnvVar "",
      ticSecret := envString env TICSecretEnvVar "",
      csrfKey := csrfKey, sessionAuthenticationKey := authKey,
      sessionEncryptionKey := encKey, sessionHttpOnly := true,
      sessionSecure := secureCookies }

/-- What `startApp` does after configuration loading: exit with code 1,
or go on to serve. -/
inductive StartOutcome where
  | exitCode (code : Nat)
  | serve
deriving Repr, DecidableEq

/-- Modelled from the spec: `controllers.InitApp` (not under src/,
only its caller `startApp` is) loads settings via `InitSettings` and
propagates any configuration error to `startApp` ("configuration
errors abort startup"). -/
def InitApp (env : String → Option String) : Except SettingsError Settings :=
  InitSettings env

/-- `main.startApp`'s configuration step: on an `InitApp` error the
process prints it and calls `os.Exit(1)` before ever reaching
`http.ListenAndServe`. -/
def startApp (env : String → Option String) : StartOutcome :=
  match InitApp env with
  | Except.error _ => StartOutcome.exitCode 1
  | Except.ok _ => StartOutcome.serve

/-- A concrete settings value used by the witnesses. -/
def sampleSettings : Settings :=
  { oauthConfig := { clientID := "id", clientSecret := "sec",
                     redirectURL := "https://app/oauth2callback",
                     scopes := ["openid"],
                     authURL := "https://login/oauth/authorize",
                     tokenURL := "https://uaa/oauth/token" },
    consoleAPI := "https://api", loginURL := "https://login",
    uaaURL := "https://uaa", logURL := "https://log",
    templatesPath := "./templates",
    highPrivilegedOauthConfig :=
      { clientID := "id", clientSecret := "sec", scopes := [],
        tokenURL := "https://uaa/oauth/token" },
    pprofEnabled := false, buildInfo := "developer-build",
    secureCookies := true, localCF := false, appURL := "https://app",
    smtpHost := "", smtpPort := "", smtpUser := "", smtpPass := "",
    smtpFrom := "", smtpCert := "", ticSecret := "", csrfKey := [],
    sessionAuthenticationKey := [], sessionEncryptionKey := [],
    sessionHttpOnly := true, sessionSecure := true }

/-- A concrete session holding the in-flight state nonce "abc". -/
def sampleSession : Session :=
  { state := some "abc", token := none, maxAge := 100 }

/-- A concrete token as the first (token-format=opaque) exchange could
return it. -/
def sampleToken1 : Token :=
  { accessToken := "opaque-access", refreshToken := "opaque-refresh",
    tokenType := "bearer", expiry := 1000 }

/-- A concrete token as the second (JWT) exchange could return it; note
its refresh token differs from `sampleToken1`'s. -/
def sampleToken2 : Token :=
  { accessToken := "jwt-access", refreshToken := "jwt-refresh",
    tokenType := "bearer", expiry := 2000 }

/-- A provider oracle whose exchanges always succeed, returning
`sampleToken1` for a code exchange and `sampleToken2` for a token-source
refresh. -/
def sampleExchange : OAuthConfig → String → Except String Token :=
  fun _ _ => Except.ok sampleToken1

/-- See `sampleExchange`. -/
def sampleTokenSource : OAuthConfig → Token → Except String Token :=
  fun _ _ => Except.ok sampleToken2

/-- A provider oracle that always fails. -/
def failingExchange : OAuthConfig → String → Except String Token :=
  fun _ _ => Except.error "network down"

/-- See `failingExchange`. -/
def failingTokenSource : OAuthConfig → Token → Except String Token :=
  fun _ _ => Except.error "network down"

end CgDashboard

namespace CgDashboard

/-- Claim C1: a callback whose `state` query parameter is empty or does
not match the session's stored state (including an absent stored state)
gets HTTP 401 with no redirect, no save, no provider call, and an
unchanged session. -/
theorem c1_state_mismatch_unauthorized (s : Settings)
    (exchange : OAuthConfig → String → Except String Token)
    (tokenSource : OAuthConfig → Token → Except String Token)
    (code state : String) (session : Session)
    (h : state = "" ∨ session.state ≠ some state) :
    OAuthCallback s exchange tokenSource code state session =
      { status := some 401, redirect := none, session := session,
        saved := false, calls := [] } := by
  unfold OAuthCallback
  exact if_pos h

/-- Witness for C1 at a concrete input: a session holding state "abc"
receives a callback carrying state "zzz". -/
theorem c1_state_mismatch_unauthorized_witness :
    OAuthCallback sampleSettings failingExchange failingTokenSource
      "somecode" "zzz" sampleSession =
      { status := some 401, redirect := none, session := sampleSession,
        saved := false, calls := [] } := by
  exact c1_state_mismatch_unauthorized _ _ _ _ _ _ (Or.inr (by decide))

/-- Claim C2: when both exchanges succeed, the token stored in the
session is the second exchange's token with its refresh-token field
overwritten by the first exchange's refresh token — so the stored
refresh token equals the first exchange's, whatever (possibly
different) refresh token the second exchange returned. -/
theorem c2_refresh_token_preserved (s : Settings)
    (exchange : OAuthConfig → String → Except String Token)
    (tokenSource : OAuthConfig → Token → Except String Token)
    (code state : String) (session : Session) (t1 t2 : Token)
    (hstate : ¬ (state = "" ∨ session.state ≠ some state))
    (h1 : exchange (tokenExchangeConfig s) code = Except.ok t1)
    (h2 : tokenSource s.oauthConfig { t1 with accessToken := "", expiry := 0 } =
            Except.ok t2) :
    (OAuthCallback s exchange tokenSource code state session).session.token =
        some { t2 with refreshToken := t1.refreshToken } ∧
      (Token.refreshToken { t2 with refreshToken := t1.refreshToken }) =
        t1.refreshToken := by
  simp only [OAuthCallback, if_neg hstate, h1, h2]
  exact ⟨trivial, trivial⟩

/-- Witness for C2: both exchanges succeed; the second returns refresh
token "jwt-refresh" but the stored one is the first's "opaque-refresh". -/
theorem c2_refresh_token_preserved_witness :
    (OAuthCallback sampleSettings sampleExchange sampleTokenSource
        "somecode" "abc" sampleSession).session.token =
      some { sampleToken2 with refreshToken := sampleToken1.refreshToken } ∧
    (Token.refreshToken
        { sampleToken2 with refreshToken := sampleToken1.refreshToken }) =
      sampleToken1.refreshToken := by
  exact c2_refresh_token_preserved _ _ _ _ _ _ _ _ (by decide) rfl rfl

/-- Claim C3: the state check gates every provider call — if the trace
of `OAuthCallback` is non-empty (some token exchange was performed),
then the `state` query parameter was non-empty and matched the
session's stored state. -/
theorem c3_state_check_before_exchange (s : Settings)
    (exchange : OAuthConfig → String → Except String Token)
    (tokenSource : OAuthConfig → Token → Except String Token)
    (code state : String) (session : Session)
    (h : (OAuthCallback s exchange tokenSource code state session).calls ≠ []) :
    state ≠ "" ∧ session.state = some state := by
  by_cases hst : state = "" ∨ session.state ≠ some state
  · exfalso
    apply h
    unfold OAuthCallback
    rw [if_pos hst]
  · push_neg at hst
    exact ⟨hst.1, hst.2⟩

/-- Witness for C3: with matching state the handler did call the
provider, and indeed the state was non-empty and matched. -/
theorem c3_state_check_before_exchange_witness :
    (OAuthCallback sampleSettings sampleExchange sampleTokenSource
        "somecode" "abc" sampleSession).calls ≠ [] ∧
      ("abc" ≠ "" ∧ sampleSession.state = some "abc") := by
  refine ⟨by decide, ?_⟩
  exact c3_state_check_before_exchange sampleSettings sampleExchange
    sampleTokenSource "somecode" "abc" sampleSession (by decide)

/-- Claim C4: if the first exchange fails, or it succeeds and the
second (token-source) call fails, the handler returns with no redirect,
no save, and the session exactly as it came in (no token, partial or
otherwise, is stored). -/
theorem c4_exchange_failure_no_redirect_no_store (s : Settings)
    (exchange : OAuthConfig → String → Except String Token)
    (tokenSource : OAuthConfig → Token → Except String Token)
    (code state : String) (session : Session)
    (hfail : (∃ e, exchange (tokenExchangeConfig s) code = Except.error e) ∨
      (∃ t1 e, exchange (tokenExchangeConfig s) code = Except.ok t1 ∧
        tokenSource s.oauthConfig { t1 with accessToken := "", expiry := 0 } =
          Except.error e)) :
    (OAuthCallback s exchange tokenSource code state session).redirect = none ∧
      (OAuthCallback s exchange tokenSource code state session).session = session ∧
      (OAuthCallback s exchange tokenSource code state session).saved = false := by
  by_cases hst : state = "" ∨ session.state ≠ some state
  · simp only [OAuthCallback, if_pos hst]
    exact ⟨trivial, trivial, trivial⟩
  · rcases hfail with ⟨e, he⟩ | ⟨t1, e, h1, h2⟩
    · simp only [OAuthCallback, if_neg hst, he]
      exact ⟨trivial, trivial, trivial⟩
    · simp only [OAuthCallback, if_neg hst, h1, h2]
      exact ⟨trivial, trivial, trivial⟩

/-- Witness for C4: the first exchange fails on a state-matching
callback; nothing is redirected, saved or stored. -/
theorem c4_exchange_failure_no_redirect_no_store_witness :
    (OAuthCallback sampleSettings failingExchange sampleTokenSource
        "somecode" "abc" sampleSession).redirect = none ∧
      (OAuthCallback sampleSettings failingExchange sampleTokenSource
        "somecode" "abc" sampleSession).session = sampleSession ∧
      (OAuthCallback sampleSettings failingExchange sampleTokenSource
        "somecode" "abc" sampleSession).saved = false := by
  exact c4_exchange_failure_no_redirect_no_store _ _ _ _ _ _
    (Or.inl ⟨"network down", rfl⟩)

/-- Claim C5: when both exchanges succeed, the stored token's access
token is exactly the one returned by the second (JWT) exchange; under
the oauth2 library's guarantee that a successful token fetch carries a
non-empty access token (hypothesis `hlib`), it is non-empty; and
whenever the second exchange's access token differs from the first's
opaque one, the stored access token is not the opaque one. -/
theorem c5_access_token_from_second_exchange (s : Settings)
    (exchange : OAuthConfig → String → Except String Token)
    (tokenSource : OAuthConfig → Token → Except String Token)
    (code state : String) (session : Session) (t1 t2 : Token)
    (hstate : ¬ (state = "" ∨ session.state ≠ some state))
    (h1 : exchange (tokenExchangeConfig s) code = Except.ok t1)
    (h2 : tokenSource s.oauthConfig { t1 with accessToken := "", expiry := 0 } =
            Except.ok t2)
    (hlib : t2.accessToken ≠ "") :
    ((OAuthCallback s exchange tokenSource code state session).session.token).map
        Token.accessToken = some t2.accessToken ∧
      ((OAuthCallback s exchange tokenSource code state session).session.token).map
        Token.accessToken ≠ some "" ∧
      (t1.accessToken ≠ t2.accessToken →
        ((OAuthCallback s exchange tokenSource code state session).session.token).map
          Token.accessToken ≠ some t1.accessToken) := by
  simp only [OAuthCallback, if_neg hstate, h1, h2]
  refine ⟨rfl, ?_, ?_⟩
  · intro hcontra
    exact hlib (Option.some.inj hcontra)
  · intro hne hcontra
    exact hne (Option.some.inj hcontra).symm

/-- Witness for C5: with the sample oracles the stored access token is
"jwt-access", non-empty, and not the opaque "opaque-access". -/
theorem c5_access_token_from_second_exchange_witness :
    ((OAuthCallback sampleSettings sampleExchange sampleTokenSource
        "somecode" "abc" sampleSession).session.token).map
        Token.accessToken = some sampleToken2.accessToken ∧
      ((OAuthCallback sampleSettings sampleExchange sampleTokenSource
        "somecode" "abc" sampleSession).session.token).map
        Token.accessToken ≠ some "" ∧
      (sampleToken1.accessToken ≠ sampleToken2.accessToken →
        ((OAuthCallback sampleSettings sampleExchange sampleTokenSource
          "somecode" "abc" sampleSession).session.token).map
          Token.accessToken ≠ some sampleToken1.accessToken) := by
  exact c5_access_token_from_second_exchange _ _ _ _ _ _ _ _
    (by decide) rfl rfl (by decide)

/-- Claim C10: `OAuthCallback` never validates `code` — on any state-
matching callback the first trace entry is the exchange of `code`
(whatever it is, including the empty string), and the handler does not
answer 401. -/
theorem c10_empty_code_not_validated (s : Settings)
    (exchange : OAuthConfig → String → Except String Token)
    (tokenSource : OAuthConfig → Token → Except String Token)
    (code state : String) (session : Session)
    (h1 : state ≠ "") (h2 : session.state = some state) :
    (OAuthCallback s exchange tokenSource code state session).calls.head? =
        some (ProviderCall.exchangeCall (tokenExchangeConfig s) code) ∧
      (OAuthCallback s exchange tokenSource code state session).status ≠
        some 401 := by
  have hst : ¬ (state = "" ∨ session.state ≠ some state) := by
    push_neg
    exact ⟨h1, by rw [h2]⟩
  cases hx : exchange (tokenExchangeConfig s) code with
  | error e =>
    simp only [OAuthCallback, if_neg hst, hx]
    exact ⟨rfl, by simp⟩
  | ok t1 =>
    cases hts : tokenSource s.oauthConfig { t1 with accessToken := "", expiry := 0 } with
    | error e =>
      simp only [OAuthCallback, if_neg hst, hx, hts]
      exact ⟨rfl, by simp⟩
    | ok t2 =>
      simp only [OAuthCallback, if_neg hst, hx, hts]
      exact ⟨rfl, by simp⟩

/-- Witness for C10: with an empty `code` and matching state the
handler still calls the provider with the empty code. -/
theorem c10_empty_code_not_validated_witness :
    (OAuthCallback sampleSettings sampleExchange sampleTokenSource
        "" "abc" sampleSession).calls.head? =
        some (ProviderCall.exchangeCall (tokenExchangeConfig sampleSettings) "") ∧
      (OAuthCallback sampleSettings sampleExchange sampleTokenSource
        "" "abc" sampleSession).status ≠ some 401 := by
  exact c10_empty_code_not_validated _ _ _ _ _ _ (by decide) rfl

/-- Claim C6: a `/login` request whose session holds a token expiring
in the future is answered by a direct 302 to `<AppURL>/#/dashboard`,
with no state generated, no session write, and the session unchanged. -/
theorem c6_login_short_circuit_valid_token (s : Settings) (now : Nat)
    (stateGen : Except String String) (saveOK : Bool)
    (session : Session) (t : Token)
    (htok : session.token = some t) (hexp : now < t.expiry) :
    LoginHandshake s now stateGen saveOK session =
      { redirect := some (302, s.appURL ++ "/#/dashboard"),
        session := session, saved := false, stateGenerated := false } := by
  unfold LoginHandshake GetValidToken
  rw [htok]
  simp [hexp]

/-- Witness for C6 at a concrete input: a session holding a token that
expires at time 2000, queried at time 1000. -/
theorem c6_login_short_circuit_valid_token_witness :
    LoginHandshake sampleSettings 1000 (Except.ok "fresh-state") true
      { state := none, token := some sampleToken2, maxAge := 100 } =
      { redirect := some (302, sampleSettings.appURL ++ "/#/dashboard"),
        session := { state := none, token := some sampleToken2, maxAge := 100 },
        saved := false, stateGenerated := false } := by
  exact c6_login_short_circuit_valid_token _ _ _ _ _ sampleToken2 rfl (by decide)

/-- Claim C8: `Logout` always clears the token, sets the cookie MaxAge
to -1 (a negative value), saves, and redirects 302 to
`<LoginURL>/logout.do`. -/
theorem c8_logout_clears_session (s : Settings) (session : Session) :
    Logout s session =
      { redirect := some (302, s.loginURL ++ "/logout.do"),
        session := { session with token := none, maxAge := -1 },
        saved := true } ∧
    (Logout s session).session.maxAge < 0 := by
  exact ⟨rfl, by simp [Logout]⟩

/-- Claim C9: with build string "test-build-42" the liveness endpoint
answers 200 with exactly the two-field JSON object; and a 500 status
can arise only from a marshal failure of the payload. -/
theorem c9_ping_alive_body (c c2 : Settings)
    (h : c.buildInfo = "test-build-42") :
    Ping c = { status := 200,
               body := "\x7b\"status\":\"alive\",\"build-info\":\"test-build-42\"\x7d" } ∧
    ((Ping c2).status = 500 → (pingData.toJSON (createPingData c2)).2 = false) := by
  constructor
  · unfold Ping createPingData
    rw [h]
    rfl
  · intro h500
    exfalso
    have : (Ping c2).status = 200 := by
      unfold Ping
      rfl
    rw [this] at h500
    exact absurd h500 (by decide)

/-- Helper: a present key makes `mustString` succeed with its value. -/
theorem mustString_ok {env : String → Option String} {key v : String}
    (h : env key = some v) : mustString env key = Except.ok v := by
  simp [mustString, h]

/-- Helper: `mustString` never fails with the insecure-cookies error. -/
theorem mustString_not_insecure (env : String → Option String) (key : String) :
    mustString env key ≠ Except.error SettingsError.insecureCookies := by
  unfold mustString
  split <;> simp

/-- Helper: `mustBool` never fails with the insecure-cookies error. -/
theorem mustBool_not_insecure (env : String → Option String) (key : String) :
    mustBool env key ≠ Except.error SettingsError.insecureCookies := by
  unfold mustBool
  split
  · split <;> simp
  · simp

/-- Helper: `decodeHexKey` never fails with the insecure-cookies error. -/
theorem decodeHexKey_not_insecure (key s : String) :
    decodeHexKey key s ≠ Except.error SettingsError.insecureCookies := by
  unfold decodeHexKey
  split <;> simp

/-- Helper: the insecure-cookies error is raised only at the guard, so
it pins both parsed flags to false. -/
theorem initSettings_insecure_flags (env : String → Option String)
    (h : InitSettings env = Except.error SettingsError.insecureCookies) :
    mustBool env LocalCFEnvVar = Except.ok false ∧
      mustBool env SecureCookiesEnvVar = Except.ok false := by
  simp only [InitSettings, Except.bind] at h
  repeat' split at h
  all_goals simp_all [mustString_not_insecure, mustBool_not_insecure,
    decodeHexKey_not_insecure]

/-- An environment with every mandatory key up to the cookie guard set,
`LOCAL_CF=false` and `SECURE_COOKIES=false`. -/
def envProdInsecure : String → Option String := fun k =>
  if k = HostnameEnvVar then some "h"
  else if k = APIURLEnvVar then some "a"
  else if k = LoginURLEnvVar then some "l"
  else if k = UAAURLEnvVar then some "u"
  else if k = LogURLEnvVar then some "g"
  else if k = PProfEnabledEnvVar then some "false"
  else if k = LocalCFEnvVar then some "false"
  else if k = SecureCookiesEnvVar then some "false"
  else none

/-- The same environment but flagged as a local CF target. -/
def envLocalInsecure : String → Option String := fun k =>
  if k = LocalCFEnvVar then some "true"
  else if k = SecureCookiesEnvVar then some "false"
  else envProdInsecure k

/-- Claim C7: with both flags parsed false (and the earlier mandatory
keys present, so loading reaches the guard), `InitSettings` returns the
insecure-cookies configuration error, whose text is the descriptive
message from the source, and `startApp` exits with code 1 instead of
serving; while any environment in which either flag parses true never
produces that error. -/
theorem c7_insecure_cookies_guard (env env2 : String → Option String)
    (hHost : ∃ v, env HostnameEnvVar = some v)
    (hAPI : ∃ v, env APIURLEnvVar = some v)
    (hLogin : ∃ v, env LoginURLEnvVar = some v)
    (hUaa : ∃ v, env UAAURLEnvVar = some v)
    (hLog : ∃ v, env LogURLEnvVar = some v)
    (hPProf : ∃ b, mustBool env PProfEnabledEnvVar = Except.ok b)
    (hLocal : mustBool env LocalCFEnvVar = Except.ok false)
    (hSecure : mustBool env SecureCookiesEnvVar = Except.ok false)
    (hOther : mustBool env2 LocalCFEnvVar = Except.ok true ∨
      mustBool env2 SecureCookiesEnvVar = Except.ok true) :
    InitSettings env = Except.error SettingsError.insecureCookies ∧
      startApp env = StartOutcome.exitCode 1 ∧
      SettingsError.message SettingsError.insecureCookies =
        "cannot run with insecure cookies when targeting a production CF environment" ∧
      InitSettings env2 ≠ Except.error SettingsError.insecureCookies := by
  obtain ⟨v1, h1⟩ := hHost
  obtain ⟨v2, h2⟩ := hAPI
  obtain ⟨v3, h3⟩ := hLogin
  obtain ⟨v4, h4⟩ := hUaa
  obtain ⟨v5, h5⟩ := hLog
  obtain ⟨b6, h6⟩ := hPProf
  have hmain : InitSettings env = Except.error SettingsError.insecureCookies := by
    simp only [InitSettings, mustString_ok h1, mustString_ok h2, mustString_ok h3,
      mustString_ok h4, mustString_ok h5, h6, hLocal, hSecure, Except.bind]
    rfl
  refine ⟨hmain, ?_, rfl, ?_⟩
  · simp only [startApp, InitApp, hmain]
  · intro hcontra
    have hflags := initSettings_insecure_flags env2 hcontra
    rcases hOther with hx | hx
    · rw [hflags.1] at hx
      exact absurd (Except.ok.inj hx) (by decide)
    · rw [hflags.2] at hx
      exact absurd (Except.ok.inj hx) (by decide)

/-- Witness for C7 at concrete environments: `envProdInsecure` trips
the guard and exits 1, `envLocalInsecure` does not trip it. -/
theorem c7_insecure_cookies_guard_witness :
    InitSettings envProdInsecure = Except.error SettingsError.insecureCookies ∧
      startApp envProdInsecure = StartOutcome.exitCode 1 ∧
      SettingsError.message SettingsError.insecureCookies =
        "cannot run with insecure cookies when targeting a production CF environment" ∧
      InitSettings envLocalInsecure ≠ Except.error SettingsError.insecureCookies := by
  exact c7_insecure_cookies_guard envProdInsecure envLocalInsecure
    ⟨"h", by decide⟩ ⟨"a", by decide⟩ ⟨"l", by decide⟩ ⟨"u", by decide⟩
    ⟨"g", by decide⟩ ⟨false, rfl⟩ rfl rfl (Or.inl rfl)

/-- Witness for C9 at concrete settings whose build string is
"test-build-42". -/
theorem c9_ping_alive_body_witness :
    Ping { sampleSettings with buildInfo := "test-build-42" } =
      { status := 200,
        body := "\x7b\"status\":\"alive\",\"build-info\":\"test-build-42\"\x7d" } ∧
    ((Ping sampleSettings).status = 500 →
      (pingData.toJSON (createPingData sampleSettings)).2 = false) := by
  exact c9_ping_alive_body { sampleSettings with buildInfo := "test-build-42" }
    sampleSettings rfl

end CgDashboard
